import Mathlib

/-!
Verification of the food-ordering server core: a shallow embedding of the
in-memory storage layer (`MemStorage` in `server/storage.ts`), the shared
schema types (`shared/schema.ts`), and the request handlers in
`server/routes.ts` that the specification's claims are about.

Modelling conventions:
* a JavaScript `Map<number, T>` is a list of entries in insertion order,
  keyed by the entity's `id` field (`storeGet` / `storeSet` / `storeDelete`);
* JavaScript numbers holding identifiers are `Nat`, quantities are `Int`
  (nothing in the code keeps them non-negative), monetary values are `ℚ`;
* `x || d` on numbers and `x || null` on strings keep JavaScript's falsy
  semantics (`0` and `""` are falsy) via `jsNumOr` and `jsStrOrNull`;
* `jsonb` payloads that no operation inspects are carried as opaque
  `Option String`;
* `new Date()` timestamps are an explicit `now : Nat` argument.
-/

namespace FoodOrder

/-- Order status enumeration from `shared/schema.ts`: the closed set
`pending | processing | delivering | delivered | cancelled`. -/
inductive OrderStatus where
  | pending
  | processing
  | delivering
  | delivered
  | cancelled
  deriving Repr, DecidableEq

/-- JavaScript `x || null` applied to an optional string: `undefined`, `null`
and the empty string (all falsy) collapse to `null`. -/
def jsStrOrNull (x : Option String) : Option String :=
  match x with
  | none => none
  | some s => if s = "" then none else some s

/-- JavaScript `x || d` applied to an optional number: `undefined` and `0`
(falsy) give the default `d`. -/
def jsNumOr (x : Option Int) (d : Int) : Int :=
  match x with
  | none => d
  | some q => if q = 0 then d else q

/-- JavaScript `x || b` applied to an optional boolean: `undefined` and
`false` give the default `b`. -/
def jsBoolOr (x : Option Bool) (b : Bool) : Bool :=
  match x with
  | none => b
  | some v => if v then v else b

/-- Row of the `users` table. -/
structure User where
  id : Nat
  username : String
  password : String
  name : Option String
  email : Option String
  isAdmin : Bool
  deriving Repr, DecidableEq

/-- Row of the `menu_items` table. The `jsonb` columns that no server
operation inspects are opaque strings. -/
structure MenuItem where
  id : Nat
  name : String
  description : String
  price : ℚ
  imageUrl : Option String
  category : String
  rating : ℚ
  reviewCount : Int
  isPopular : Bool
  isSeasonal : Bool
  isCombo : Bool
  dietaryPreferences : Option String
  nutritionalInfo : Option String
  availableAddons : Option String
  comboItems : Option String
  discountPercentage : ℚ
  createdAt : Nat
  deriving Repr, DecidableEq

/-- Row of the `cart_items` table. -/
structure CartItem where
  id : Nat
  userId : Nat
  menuItemId : Nat
  quantity : Int
  selectedAddons : Option String
  specialInstructions : Option String
  deriving Repr, DecidableEq

/-- One entry of an order's `items` snapshot (`jsonb`): the shape that
`getOrdersByUserId` reads back (`menuItemId` and `quantity`). -/
structure OrderLine where
  menuItemId : Nat
  quantity : Int
  deriving Repr, DecidableEq

/-- Row of the `orders` table. -/
structure Order where
  id : Nat
  userId : Nat
  items : List OrderLine
  status : OrderStatus
  total : ℚ
  createdAt : Nat
  address : Option String
  paymentId : Option String
  deriving Repr, DecidableEq

/-- Payload accepted by `insertUserSchema` (picked columns only). -/
structure InsertUser where
  username : String
  password : String
  name : Option String
  email : Option String
  isAdmin : Option Bool
  deriving Repr, DecidableEq

/-- Payload accepted by `insertMenuItemSchema` (picked columns only). -/
structure InsertMenuItem where
  name : String
  description : String
  price : ℚ
  imageUrl : Option String
  category : String
  isPopular : Option Bool
  deriving Repr, DecidableEq

/-- Payload accepted by `insertCartItemSchema` (picked columns:
`userId`, `menuItemId`, `quantity`; `quantity` is optional because the
column has a default, and the schema imposes no lower bound on it). -/
structure InsertCartItem where
  userId : Nat
  menuItemId : Nat
  quantity : Option Int
  deriving Repr, DecidableEq

/-- Payload accepted by `insertOrderSchema` (picked columns: `userId`,
`items`, `total`, `address`, `paymentId`; note `status` is not picked). -/
structure InsertOrder where
  userId : Nat
  items : List OrderLine
  total : ℚ
  address : Option String
  paymentId : Option String
  deriving Repr, DecidableEq

/-- Lookup in a `Map<number, T>` keyed by `key`: `map.get(k)`. -/
def storeGet (key : α → Nat) (l : List α) (k : Nat) : Option α :=
  l.find? (fun v => key v == k)

/-- Entry update in a `Map<number, T>`: `map.set(key v, v)` replaces the
entry with that key when present and otherwise appends (JavaScript maps
preserve insertion order). -/
def storeSet (key : α → Nat) (l : List α) (v : α) : List α :=
  if l.any (fun w => key w == key v) then
    l.map (fun w => if key w == key v then v else w)
  else
    l ++ [v]

/-- Entry removal in a `Map<number, T>`: `map.delete(k)` returns whether the
key was present and drops its entry. -/
def storeDelete (key : α → Nat) (l : List α) (k : Nat) : Bool × List α :=
  (l.any (fun v => key v == k), l.filter (fun v => key v != k))

/-- The private fields of `MemStorage`: one map and one id counter per
entity type. -/
structure StoreState where
  users : List User
  menuItems : List MenuItem
  cartItems : List CartItem
  orders : List Order
  userIdCounter : Nat
  menuItemIdCounter : Nat
  cartItemIdCounter : Nat
  orderIdCounter : Nat
  deriving Repr, DecidableEq

/-- `MemStorage`'s constructor state before seeding: empty maps, every
counter at 1. -/
def initState : StoreState :=
  { users := [], menuItems := [], cartItems := [], orders := []
    userIdCounter := 1, menuItemIdCounter := 1
    cartItemIdCounter := 1, orderIdCounter := 1 }

/-- `MemStorage.createUser`: assigns the current user counter as the id,
increments the counter, normalises optional fields with `|| null` /
`|| false`, and stores the user. -/
def createUser (ins : InsertUser) (s : StoreState) : User × StoreState :=
  let id := s.userIdCounter
  let user : User :=
    { id := id, username := ins.username, password := ins.password
      name := jsStrOrNull ins.name, email := jsStrOrNull ins.email
      isAdmin := jsBoolOr ins.isAdmin false }
  (user, { s with users := storeSet User.id s.users user
                  userIdCounter := id + 1 })

/-- `MemStorage.createMenuItem`: assigns the current menu-item counter as
the id, increments the counter, fills the defaulted columns, and stores
the item. -/
def createMenuItem (ins : InsertMenuItem) (now : Nat) (s : StoreState) :
    MenuItem × StoreState :=
  let id := s.menuItemIdCounter
  let item : MenuItem :=
    { id := id, name := ins.name, description := ins.description
      price := ins.price, imageUrl := jsStrOrNull ins.imageUrl
      category := ins.category, rating := 0, reviewCount := 0
      isPopular := jsBoolOr ins.isPopular false, isSeasonal := false
      isCombo := false, dietaryPreferences := none, nutritionalInfo := none
      availableAddons := none, comboItems := none, discountPercentage := 0
      createdAt := now }
  (item, { s with menuItems := storeSet MenuItem.id s.menuItems item
                  menuItemIdCounter := id + 1 })

/-- `MemStorage.updateMenuItem`: spread of the insert payload over the
existing item (the payload has no `id`, so the id is preserved); absent
optional fields leave the stored value. -/
def updateMenuItem (id : Nat) (ins : InsertMenuItem) (s : StoreState) :
    Option MenuItem × StoreState :=
  match storeGet MenuItem.id s.menuItems id with
  | none => (none, s)
  | some existing =>
    let updated : MenuItem :=
      { existing with
        name := ins.name, description := ins.description, price := ins.price
        imageUrl := match ins.imageUrl with
          | none => existing.imageUrl
          | some u => some u
        category := ins.category
        isPopular := match ins.isPopular with
          | none => existing.isPopular
          | some b => b }
    (some updated, { s with menuItems := storeSet MenuItem.id s.menuItems updated })

/-- `MemStorage.deleteMenuItem`: `Map.delete`, reporting presence. -/
def deleteMenuItem (id : Nat) (s : StoreState) : Bool × StoreState :=
  let d := storeDelete MenuItem.id s.menuItems id
  (d.1, { s with menuItems := d.2 })

/-- `MemStorage.getCartItems`: the user's cart lines in insertion order. -/
def getCartItems (userId : Nat) (s : StoreState) : List CartItem :=
  s.cartItems.filter (fun item => item.userId == userId)

/-- Cart line joined with the live menu item, as returned by
`getCartItemsWithDetails` (the source asserts the menu item non-null with
`menuItem!`; the model keeps the possibly-absent lookup). -/
structure CartItemWithDetails where
  item : CartItem
  menuItem : Option MenuItem
  deriving Repr, DecidableEq

/-- `MemStorage.getCartItemsWithDetails`: each cart line joined with the
current `menuItems` entry for its `menuItemId`. -/
def getCartItemsWithDetails (userId : Nat) (s : StoreState) :
    List CartItemWithDetails :=
  (getCartItems userId s).map
    (fun item => ⟨item, storeGet MenuItem.id s.menuItems item.menuItemId⟩)

/-- `MemStorage.updateCartItemQuantity`: fails (returns `undefined`, no
mutation) unless the line exists and belongs to `userId`; otherwise stores
the line with the new quantity. -/
def updateCartItemQuantity (id userId : Nat) (quantity : Int)
    (s : StoreState) : Option CartItem × StoreState :=
  match storeGet CartItem.id s.cartItems id with
  | none => (none, s)
  | some cartItem =>
    if cartItem.userId ≠ userId then (none, s)
    else
      let updated : CartItem := { cartItem with quantity := quantity }
      (some updated, { s with cartItems := storeSet CartItem.id s.cartItems updated })

/-- `MemStorage.addToCart`: if a line for `(userId, menuItemId)` already
exists (first match in insertion order), delegate to
`updateCartItemQuantity` with the incremented quantity; otherwise create a
new line under the next cart id. Both spots read the requested quantity as
`insertCartItem.quantity || 1`. -/
def addToCart (ins : InsertCartItem) (s : StoreState) :
    Option CartItem × StoreState :=
  match s.cartItems.find?
      (fun item => item.userId == ins.userId && item.menuItemId == ins.menuItemId) with
  | some existing =>
    updateCartItemQuantity existing.id ins.userId
      (existing.quantity + jsNumOr ins.quantity 1) s
  | none =>
    let id := s.cartItemIdCounter
    let cartItem : CartItem :=
      { id := id, userId := ins.userId, menuItemId := ins.menuItemId
        quantity := jsNumOr ins.quantity 1
        selectedAddons := none, specialInstructions := none }
    (some cartItem, { s with cartItems := storeSet CartItem.id s.cartItems cartItem
                             cartItemIdCounter := id + 1 })

/-- `MemStorage.removeFromCart`: fails (returns `false`, no mutation)
unless the line exists and belongs to `userId`; otherwise `Map.delete`. -/
def removeFromCart (id userId : Nat) (s : StoreState) : Bool × StoreState :=
  match storeGet CartItem.id s.cartItems id with
  | none => (false, s)
  | some cartItem =>
    if cartItem.userId ≠ userId then (false, s)
    else
      let d := storeDelete CartItem.id s.cartItems id
      (d.1, { s with cartItems := d.2 })

/-- `MemStorage.clearCart`: reads the user's lines, then deletes each by
id; always returns `true`. -/
def clearCart (userId : Nat) (s : StoreState) : Bool × StoreState :=
  let items := getCartItems userId s
  let remaining := items.foldl
    (fun m item => (storeDelete CartItem.id m item.id).2) s.cartItems
  (true, { s with cartItems := remaining })

/-- `MemStorage.createOrder`: assigns the current order counter as the id,
increments the counter, forces `status` to `pending`, stamps `createdAt`,
and normalises `address` / `paymentId` with `|| null`. -/
def createOrder (ins : InsertOrder) (now : Nat) (s : StoreState) :
    Order × StoreState :=
  let id := s.orderIdCounter
  let order : Order :=
    { id := id, userId := ins.userId, items := ins.items
      status := OrderStatus.pending, total := ins.total, createdAt := now
      address := jsStrOrNull ins.address, paymentId := jsStrOrNull ins.paymentId }
  (order, { s with orders := storeSet Order.id s.orders order
                   orderIdCounter := id + 1 })

/-- `MemStorage.getOrderById`. -/
def getOrderById (id : Nat) (s : StoreState) : Option Order :=
  storeGet Order.id s.orders id

/-- Order joined with the live menu items, as returned by
`getOrdersByUserId`. -/
structure OrderWithItems where
  order : Order
  items : List (Option MenuItem × Int)
  deriving Repr, DecidableEq

/-- `MemStorage.getOrdersByUserId`: the user's orders, each order line
joined with the current menu item for its id. -/
def getOrdersByUserId (userId : Nat) (s : StoreState) : List OrderWithItems :=
  (s.orders.filter (fun o => o.userId == userId)).map
    (fun o => ⟨o, o.items.map
      (fun line => (storeGet MenuItem.id s.menuItems line.menuItemId, line.quantity))⟩)

/-- `MemStorage.getAllOrders`. -/
def getAllOrders (s : StoreState) : List Order :=
  s.orders

/-- `MemStorage.updateOrderStatus`: `undefined` (no mutation) when the
order is absent; otherwise stores the order with the new status, with no
check on the current status. -/
def updateOrderStatus (id : Nat) (status : OrderStatus) (s : StoreState) :
    Option Order × StoreState :=
  match storeGet Order.id s.orders id with
  | none => (none, s)
  | some order =>
    let updated : Order := { order with status := status }
    (some updated, { s with orders := storeSet Order.id s.orders updated })

/-- Request body of `POST /api/cart` as the route sees it after the
authenticated user id is spread in (`{...req.body, userId: req.user.id}`).
The zod insert schema accepts any integer quantity (or none, because the
column has a default). -/
structure PostCartBody where
  menuItemId : Nat
  quantity : Option Int
  deriving Repr, DecidableEq

/-- Handler of `POST /api/cart` (authenticated): validates the body with
`insertCartItemSchema` — which puts no lower bound on `quantity` — calls
`addToCart`, and answers 201 with the resulting line. -/
def postCart (authId : Nat) (body : PostCartBody) (s : StoreState) :
    Nat × Option CartItem × StoreState :=
  let ins : InsertCartItem :=
    { userId := authId, menuItemId := body.menuItemId, quantity := body.quantity }
  let r := addToCart ins s
  (201, r.1, r.2)

/-- Handler of `PUT /api/cart/:id` (authenticated): rejects `quantity < 1`
with 400, answers 404 when the update reports no such owned line, else
200. -/
def putCart (authId id : Nat) (quantity : Int) (s : StoreState) :
    Nat × StoreState :=
  if quantity < 1 then (400, s)
  else
    let r := updateCartItemQuantity id authId quantity s
    match r.1 with
    | none => (404, s)
    | some _ => (200, r.2)

/-- Handler of `DELETE /api/cart/:id` (authenticated): answers 404 when the
removal reports no such owned line, else 204. -/
def deleteCart (authId id : Nat) (s : StoreState) : Nat × StoreState :=
  let r := removeFromCart id authId s
  if r.1 then (204, r.2) else (404, s)

/-- Request body of `POST /api/orders` before the route spreads in the
authenticated user id: the caller may supply a `userId` and a `status`,
but the spread overrides the former and `insertOrderSchema` does not pick
the latter. -/
structure PostOrderBody where
  userId : Option Nat
  items : List OrderLine
  total : ℚ
  address : Option String
  paymentId : Option String
  status : Option OrderStatus
  deriving Repr, DecidableEq

/-- Handler of `POST /api/orders` (authenticated): validates
`{...req.body, userId: req.user.id}` against `insertOrderSchema` (dropping
any supplied `status`, overriding any supplied `userId`), creates the
order, then clears the user's cart, answering 201 with the order. -/
def postOrders (authId : Nat) (body : PostOrderBody) (now : Nat)
    (s : StoreState) : Nat × Order × StoreState :=
  let ins : InsertOrder :=
    { userId := authId, items := body.items, total := body.total
      address := body.address, paymentId := body.paymentId }
  let r := createOrder ins now s
  let c := clearCart authId r.2
  (201, r.1, c.2)

/-- Handler of `GET /api/orders/:userId` (authenticated): a non-admin
requesting a `userId` other than their own gets 403 and no data; otherwise
200 with the joined orders. -/
def getOrdersForUser (requester : User) (userId : Nat) (s : StoreState) :
    Nat × Option (List OrderWithItems) :=
  if userId ≠ requester.id ∧ ¬requester.isAdmin then (403, none)
  else (200, some (getOrdersByUserId userId s))

/-- Status strings admitted by `PATCH /api/orders/:id`
(`['pending', 'processing', 'delivering', 'delivered', 'cancelled'].includes`). -/
def parseOrderStatus (status : String) : Option OrderStatus :=
  if status = "pending" then some OrderStatus.pending
  else if status = "processing" then some OrderStatus.processing
  else if status = "delivering" then some OrderStatus.delivering
  else if status = "delivered" then some OrderStatus.delivered
  else if status = "cancelled" then some OrderStatus.cancelled
  else none

/-- Handler of `PATCH /api/orders/:id` (admin): 400 when the status string
is outside the fixed enumeration, 404 when the order does not exist, else
200 with the updated order; no transition guard. -/
def patchOrders (id : Nat) (status : String) (s : StoreState) :
    Nat × Option Order × StoreState :=
  match parseOrderStatus status with
  | none => (400, none, s)
  | some st =>
    let r := updateOrderStatus id st s
    match r.1 with
    | none => (404, none, s)
    | some o => (200, some o, r.2)

/-- JavaScript `Math.round`: round half away from zero toward positive
infinity, i.e. `⌊x + 1/2⌋`. -/
def jsRound (q : ℚ) : ℤ :=
  ⌊q + 1 / 2⌋

/-- Outcome of `POST /api/payment`: either a 400 rejection or a call to the
payment capability carrying the amount in minor currency units. -/
inductive PaymentOutcome where
  | badRequest
  | intent (minorUnits : ℤ)
  deriving Repr, DecidableEq

/-- Handler of `POST /api/payment` (authenticated): the guard
`!amount || amount <= 0` rejects a missing amount, and for a number
`!amount` holds exactly on `0`, which `amount <= 0` already covers; an
accepted amount is forwarded as `Math.round(amount * 100)` minor units. -/
def postPayment (amount : Option ℚ) : PaymentOutcome :=
  match amount with
  | none => PaymentOutcome.badRequest
  | some a =>
    if a ≤ 0 then PaymentOutcome.badRequest
    else PaymentOutcome.intent (jsRound (a * 100))

/-- One mutating call of the `IStorage` interface, for stating invariants
over arbitrary operation sequences. -/
inductive Op where
  | createUser (ins : InsertUser)
  | createMenuItem (ins : InsertMenuItem) (now : Nat)
  | updateMenuItem (id : Nat) (ins : InsertMenuItem)
  | deleteMenuItem (id : Nat)
  | addToCart (ins : InsertCartItem)
  | removeFromCart (id userId : Nat)
  | updateCartItemQuantity (id userId : Nat) (quantity : Int)
  | clearCart (userId : Nat)
  | createOrder (ins : InsertOrder) (now : Nat)
  | updateOrderStatus (id : Nat) (status : OrderStatus)
  deriving Repr

/-- State transition of one storage call (the returned value dropped). -/
def step (op : Op) (s : StoreState) : StoreState :=
  match op with
  | Op.createUser ins => (createUser ins s).2
  | Op.createMenuItem ins now => (createMenuItem ins now s).2
  | Op.updateMenuItem id ins => (updateMenuItem id ins s).2
  | Op.deleteMenuItem id => (deleteMenuItem id s).2
  | Op.addToCart ins => (addToCart ins s).2
  | Op.removeFromCart id userId => (removeFromCart id userId s).2
  | Op.updateCartItemQuantity id userId q => (updateCartItemQuantity id userId q s).2
  | Op.clearCart userId => (clearCart userId s).2
  | Op.createOrder ins now => (createOrder ins now s).2
  | Op.updateOrderStatus id st => (updateOrderStatus id st s).2

/-- Replay of a sequence of storage calls from a starting state. -/
def run (ops : List Op) (s : StoreState) : StoreState :=
  ops.foldl (fun t op => step op t) s

/-- Identifiers of a collection listed in insertion order are strictly
increasing (hence pairwise distinct). -/
def idsSorted (key : α → Nat) (l : List α) : Prop :=
  (l.map key).Pairwise (· < ·)

/-- Every identifier of the collection is below the collection's counter. -/
def idsBelow (key : α → Nat) (l : List α) (n : Nat) : Prop :=
  ∀ x ∈ l, key x < n

/-- Well-formedness of the store: in each of the four collections the ids
are strictly increasing in insertion order and lie below the collection's
counter. -/
structure StoreWF (s : StoreState) : Prop where
  usersSorted : idsSorted User.id s.users
  usersBelow : idsBelow User.id s.users s.userIdCounter
  menuSorted : idsSorted MenuItem.id s.menuItems
  menuBelow : idsBelow MenuItem.id s.menuItems s.menuItemIdCounter
  cartSorted : idsSorted CartItem.id s.cartItems
  cartBelow : idsBelow CartItem.id s.cartItems s.cartItemIdCounter
  ordersSorted : idsSorted Order.id s.orders
  ordersBelow : idsBelow Order.id s.orders s.orderIdCounter

/-- Concrete admin requester used in witness statements. -/
def adminUser : User :=
  { id := 1, username := "admin", password := "admin_password"
    name := some "Admin User", email := some "admin@quickbite.com"
    isAdmin := true }

/-- Concrete non-admin requester used in witness statements. -/
def plainUser : User :=
  { id := 2, username := "alice", password := "pw"
    name := none, email := none, isAdmin := false }

/-- Concrete cart line (owned by user 2) used in witness statements. -/
def demoCartItem : CartItem :=
  { id := 1, userId := 2, menuItemId := 5, quantity := 2
    selectedAddons := none, specialInstructions := none }

/-- Concrete store holding one cart line, used in witness statements. -/
def stateWithCart : StoreState :=
  { initState with cartItems := [demoCartItem], cartItemIdCounter := 2 }

/-- Concrete delivered order (for user 2) used in witness statements. -/
def demoOrder : Order :=
  { id := 1, userId := 2, items := [⟨5, 2⟩], status := OrderStatus.delivered
    total := 25, createdAt := 0, address := none, paymentId := none }

/-- Concrete store holding one delivered order, used in witness
statements. -/
def stateWithOrder : StoreState :=
  { initState with orders := [demoOrder], orderIdCounter := 2 }

theorem any_key_eq_false (key : α → Nat) (l : List α) (k : Nat)
    (h : ∀ x ∈ l, key x ≠ k) : l.any (fun w => key w == k) = false := by
  simp only [List.any_eq_false, beq_iff_eq]
  exact h

theorem storeSet_of_fresh (key : α → Nat) (l : List α) (v : α)
    (h : ∀ x ∈ l, key x ≠ key v) : storeSet key l v = l ++ [v] := by
  unfold storeSet
  rw [any_key_eq_false key l (key v) h]
  simp

theorem storeGet_mem (key : α → Nat) (l : List α) (k : Nat) (v : α)
    (h : storeGet key l k = some v) : v ∈ l ∧ key v = k := by
  unfold storeGet at h
  refine ⟨List.mem_of_find?_eq_some h, ?_⟩
  have hp := List.find?_some h
  simpa using hp

theorem find?_map_replace (key : α → Nat) (l : List α) (v : α) :
    (l.map (fun w => if key w == key v then v else w)).find?
        (fun x => key x == key v)
      = if l.any (fun x => key x == key v) then some v else none := by
  induction l with
  | nil => simp
  | cons x xs ih =>
    by_cases h : key x = key v
    · simp [h]
    · have hb : (key x == key v) = false := by simp [h]
      rw [List.map_cons]
      rw [show (if key x == key v then v else x) = x by simp [hb]]
      rw [List.find?_cons_of_neg _ (by simp [hb])]
      rw [ih, List.any_cons, hb]
      simp

theorem storeGet_storeSet_same (key : α → Nat) (l : List α) (v : α)
    (h : l.any (fun x => key x == key v) = true) :
    storeGet key (storeSet key l v) (key v) = some v := by
  unfold storeGet storeSet
  rw [if_pos h, find?_map_replace, if_pos h]

theorem storeSet_map_key (key : α → Nat) (l : List α) (v : α)
    (h : l.any (fun x => key x == key v) = true) :
    (storeSet key l v).map key = l.map key := by
  unfold storeSet
  rw [if_pos h, List.map_map]
  refine List.map_congr_left ?_
  intro x hx
  by_cases hk : key x = key v
  · simp [Function.comp, hk]
  · simp [Function.comp, hk]

theorem foldl_delete_eq_filter (key : α → Nat) (f : β → Nat)
    (items : List β) (l : List α) :
    items.foldl (fun m it => (storeDelete key m (f it)).2) l
      = l.filter (fun x => !(items.any (fun it => key x == f it))) := by
  induction items generalizing l with
  | nil => simp
  | cons it its ih =>
    simp only [List.foldl_cons]
    rw [ih]
    show ((storeDelete key l (f it)).2).filter _ = _
    unfold storeDelete
    simp only
    rw [List.filter_filter]
    refine List.filter_congr ?_
    intro x hx
    simp only [List.any_cons, Bool.not_or, bne]
    rw [Bool.and_comm]

theorem clearCart_eq (U : Nat) (s : StoreState) :
    clearCart U s
      = (true, { s with
                 cartItems := s.cartItems.filter
                   (fun x => !((getCartItems U s).any (fun it => x.id == it.id))) }) := by
  unfold clearCart
  simp only
  rw [foldl_delete_eq_filter]

theorem mem_getCartItems (U : Nat) (s : StoreState) (x : CartItem) :
    x ∈ getCartItems U s ↔ x ∈ s.cartItems ∧ x.userId = U := by
  unfold getCartItems
  simp [List.mem_filter]

theorem getCartItems_clearCart (U : Nat) (s : StoreState) :
    getCartItems U (clearCart U s).2 = [] := by
  rw [clearCart_eq]
  unfold getCartItems
  simp only
  rw [List.filter_filter]
  refine List.filter_eq_nil_iff.mpr ?_
  intro x hx
  by_cases hU : x.userId = U
  · have hany : ((s.cartItems.filter (fun item => item.userId == U)).any
        (fun it => x.id == it.id)) = true := by
      refine List.any_eq_true.mpr ⟨x, ?_, by simp⟩
      exact List.mem_filter.mpr ⟨hx, by simp [hU]⟩
    rw [hany]
    simp
  · simp [hU]

theorem storeSet_append_last (key : α → Nat) (l : List α) (v w : α)
    (hv : key v = key w) (h : ∀ x ∈ l, key x ≠ key w) :
    storeSet key (l ++ [v]) w = l ++ [w] := by
  unfold storeSet
  have hany : (l ++ [v]).any (fun x => key x == key w) = true := by
    simp [List.any_append, hv]
  rw [if_pos hany, List.map_append]
  congr 1
  · have hmap : l.map (fun x => if key x == key w then w else x) = l.map id :=
      List.map_congr_left (fun x hx => by simp [h x hx])
    simpa using hmap
  · simp [hv]

theorem addToCart_fresh (U M : Nat) (q : Option Int) (s : StoreState)
    (hb : ∀ x ∈ s.cartItems, x.id < s.cartItemIdCounter)
    (hno : s.cartItems.find?
      (fun item => item.userId == U && item.menuItemId == M) = none) :
    addToCart ⟨U, M, q⟩ s
      = (some { id := s.cartItemIdCounter, userId := U
                menuItemId := M, quantity := jsNumOr q 1
                selectedAddons := none, specialInstructions := none },
         { s with
           cartItems := s.cartItems ++
             [{ id := s.cartItemIdCounter, userId := U
                menuItemId := M, quantity := jsNumOr q 1
                selectedAddons := none, specialInstructions := none }]
           cartItemIdCounter := s.cartItemIdCounter + 1 }) := by
  unfold addToCart
  rw [hno]
  simp only
  rw [storeSet_of_fresh _ _ _ (fun x hx => Nat.ne_of_lt (hb x hx))]

/-- C5: removing or updating a cart line that does not exist or is owned by
a different user fails (`false` / `undefined`, hence 404 at the route) and
leaves the whole store unchanged. -/
theorem cartOps_foreign_fail (lid U : Nat) (q : Int) (s : StoreState)
    (h : ∀ it ∈ s.cartItems, it.id = lid → it.userId ≠ U) :
    removeFromCart lid U s = (false, s)
      ∧ updateCartItemQuantity lid U q s = (none, s)
      ∧ deleteCart U lid s = (404, s)
      ∧ (1 ≤ q → putCart U lid q s = (404, s)) := by
  have hrm : removeFromCart lid U s = (false, s) := by
    unfold removeFromCart
    cases hg : storeGet CartItem.id s.cartItems lid with
    | none => rfl
    | some it =>
      have hm := storeGet_mem CartItem.id s.cartItems lid it hg
      dsimp only
      rw [if_pos (h it hm.1 hm.2)]
  have hup : updateCartItemQuantity lid U q s = (none, s) := by
    unfold updateCartItemQuantity
    cases hg : storeGet CartItem.id s.cartItems lid with
    | none => rfl
    | some it =>
      have hm := storeGet_mem CartItem.id s.cartItems lid it hg
      dsimp only
      rw [if_pos (h it hm.1 hm.2)]
  refine ⟨hrm, hup, ?_, ?_⟩
  · unfold deleteCart
    rw [hrm]
    rfl
  · intro hq
    unfold putCart
    rw [if_neg (by omega), hup]

theorem cartOps_foreign_fail_witness :
    removeFromCart 1 3 stateWithCart = (false, stateWithCart)
      ∧ updateCartItemQuantity 1 3 5 stateWithCart = (none, stateWithCart) := by
  have h := cartOps_foreign_fail 1 3 5 stateWithCart (by decide)
  exact ⟨h.1, h.2.1⟩

/-- C6: after `createOrder` succeeds for a user and the cart-clear step is
invoked, `getCartItemsWithDetails` for that user returns the empty list. -/
theorem cart_empty_after_order (ins : InsertOrder) (now : Nat) (s : StoreState) :
    getCartItemsWithDetails ins.userId
        (clearCart ins.userId (createOrder ins now s).2).2 = [] := by
  unfold getCartItemsWithDetails
  rw [getCartItems_clearCart]
  rfl

/-- C10: `clearCart` deletes exactly the requesting user's cart lines and
nothing else — all other collections and counters are untouched — and
reports `true` even when the user's cart was already empty. -/
theorem clearCart_frame (U : Nat) (s : StoreState)
    (hnd : (s.cartItems.map CartItem.id).Nodup) :
    clearCart U s
      = (true, { s with
                 cartItems := s.cartItems.filter (fun c => c.userId != U) }) := by
  rw [clearCart_eq]
  have hfil : s.cartItems.filter
        (fun x => !((getCartItems U s).any (fun it => x.id == it.id)))
      = s.cartItems.filter (fun c => c.userId != U) := by
    refine List.filter_congr ?_
    intro x hx
    by_cases hU : x.userId = U
    · have hmem : x ∈ getCartItems U s := (mem_getCartItems U s x).mpr ⟨hx, hU⟩
      have hany : (getCartItems U s).any (fun it => x.id == it.id) = true :=
        List.any_eq_true.mpr ⟨x, hmem, by simp⟩
      simp [hany, hU]
    · have hany : (getCartItems U s).any (fun it => x.id == it.id) = false := by
        simp only [List.any_eq_false]
        intro it hit
        have hitm := (mem_getCartItems U s it).mp hit
        intro hbeq
        have hid : x.id = it.id := by simpa using hbeq
        have hxy : x = it := List.inj_on_of_nodup_map hnd hx hitm.1 hid
        exact hU (hxy ▸ hitm.2)
      simp [hany, hU]
  rw [hfil]

theorem clearCart_frame_witness :
    clearCart 2 stateWithCart
      = (true, { stateWithCart with cartItems := [] })
      ∧ clearCart 7 stateWithCart = (true, stateWithCart) := by
  constructor
  · have h := clearCart_frame 2 stateWithCart (by decide)
    rw [h]
    decide
  · have h := clearCart_frame 7 stateWithCart (by decide)
    rw [h]
    decide

/-- C1: starting from a store whose cart has no line for `(U, M)` (and
whose cart ids are below the counter, as every reachable store satisfies),
calling add-to-cart twice for `(U, M)` with quantities `q1, q2 ≥ 1` leaves
exactly one cart line for `(U, M)`, whose quantity is `q1 + q2`. -/
theorem addToCart_merge_invariant (U M : Nat) (q1 q2 : Int) (s : StoreState)
    (hb : ∀ x ∈ s.cartItems, x.id < s.cartItemIdCounter)
    (hno : ∀ x ∈ s.cartItems, ¬(x.userId = U ∧ x.menuItemId = M))
    (hq1 : 1 ≤ q1) (hq2 : 1 ≤ q2) :
    ((addToCart ⟨U, M, some q2⟩ (addToCart ⟨U, M, some q1⟩ s).2).2).cartItems.filter
        (fun c => c.userId == U && c.menuItemId == M)
      = [{ id := s.cartItemIdCounter, userId := U, menuItemId := M
           quantity := q1 + q2, selectedAddons := none
           specialInstructions := none }] := by
  have hfind : s.cartItems.find?
      (fun item => item.userId == U && item.menuItemId == M) = none := by
    refine List.find?_eq_none.mpr ?_
    intro x hx hp
    exact hno x hx (by simpa using hp)
  have hq1e : jsNumOr (some q1) 1 = q1 := by
    show (if q1 = 0 then 1 else q1) = q1
    rw [if_neg (by omega)]
  have hq2e : jsNumOr (some q2) 1 = q2 := by
    show (if q2 = 0 then 1 else q2) = q2
    rw [if_neg (by omega)]
  have h1 := addToCart_fresh U M (some q1) s hb hfind
  rw [hq1e] at h1
  rw [h1]
  show ((addToCart ⟨U, M, some q2⟩
      { s with
        cartItems := s.cartItems ++
          [{ id := s.cartItemIdCounter, userId := U, menuItemId := M
             quantity := q1, selectedAddons := none
             specialInstructions := none }]
        cartItemIdCounter := s.cartItemIdCounter + 1 }).2).cartItems.filter
      (fun c => c.userId == U && c.menuItemId == M) = _
  have hfind2 : (s.cartItems ++
      [({ id := s.cartItemIdCounter, userId := U, menuItemId := M
          quantity := q1, selectedAddons := none
          specialInstructions := none } : CartItem)]).find?
        (fun item => item.userId == U && item.menuItemId == M)
      = some { id := s.cartItemIdCounter, userId := U, menuItemId := M
               quantity := q1, selectedAddons := none
               specialInstructions := none } := by
    rw [List.find?_append, hfind]
    simp
  unfold addToCart
  rw [hfind2]
  simp only
  have hget : storeGet CartItem.id (s.cartItems ++
      [({ id := s.cartItemIdCounter, userId := U, menuItemId := M
          quantity := q1, selectedAddons := none
          specialInstructions := none } : CartItem)]) s.cartItemIdCounter
      = some { id := s.cartItemIdCounter, userId := U, menuItemId := M
               quantity := q1, selectedAddons := none
               specialInstructions := none } := by
    unfold storeGet
    rw [List.find?_append]
    have hpre : s.cartItems.find? (fun v => v.id == s.cartItemIdCounter)
        = none := by
      refine List.find?_eq_none.mpr ?_
      intro x hx hp
      exact absurd (by simpa using hp) (Nat.ne_of_lt (hb x hx))
    rw [hpre]
    simp
  unfold updateCartItemQuantity
  rw [hget]
  simp only
  rw [if_neg (by simp)]
  simp only
  rw [storeSet_append_last CartItem.id s.cartItems
    { id := s.cartItemIdCounter, userId := U, menuItemId := M
      quantity := q1, selectedAddons := none, specialInstructions := none }
    { id := s.cartItemIdCounter, userId := U, menuItemId := M
      quantity := q1 + jsNumOr (some q2) 1
      selectedAddons := none, specialInstructions := none }
    rfl (fun x hx => Nat.ne_of_lt (hb x hx))]
  rw [List.filter_append]
  have hnilpre : s.cartItems.filter
      (fun cc => cc.userId == U && cc.menuItemId == M) = [] := by
    refine List.filter_eq_nil_iff.mpr ?_
    intro x hx hp
    exact hno x hx (by simpa using hp)
  rw [hnilpre]
  rw [hq2e]
  simp

theorem addToCart_merge_invariant_witness :
    ((addToCart ⟨1, 5, some 3⟩ (addToCart ⟨1, 5, some 2⟩ initState).2).2).cartItems.filter
        (fun c => c.userId == 1 && c.menuItemId == 5)
      = [{ id := 1, userId := 1, menuItemId := 5, quantity := 5
           selectedAddons := none, specialInstructions := none }] := by
  have h := addToCart_merge_invariant 1 5 2 3 initState
    (by simp [initState]) (by simp [initState]) (by omega) (by omega)
  simpa using h

/-- Concrete `POST /api/orders` body carrying a caller-supplied status and
an empty-string address, used to exercise `createOrder`'s normalisations. -/
def c2Body : PostOrderBody :=
  { userId := some 9, items := [⟨5, 2⟩], total := 30
    address := some "", paymentId := none
    status := some OrderStatus.delivered }

/-- C2 counterexample: the created order's `address` is not taken verbatim
from the request — an empty-string address is stored as `null` by the
`insertOrder.address || null` coalescing (the supplied status is still
ignored). -/
theorem postOrders_empty_address_cex :
    c2Body.address = some ""
      ∧ ((postOrders 1 c2Body 0 initState).2.1).address ≠ some "" := by
  exact ⟨rfl, by decide⟩

/-- C2 amended: `createOrder` always yields status `pending` regardless of
any status in the body; `userId` is the authenticated requester's id,
`items`, `total` and the timestamp are taken verbatim, and `address` /
`paymentId` are taken from the request up to JavaScript falsy coalescing
(`"" ↦ null`). -/
theorem postOrders_fields (authId : Nat) (body : PostOrderBody) (now : Nat)
    (s : StoreState) :
    (postOrders authId body now s).1 = 201
      ∧ ((postOrders authId body now s).2.1).status = OrderStatus.pending
      ∧ ((postOrders authId body now s).2.1).userId = authId
      ∧ ((postOrders authId body now s).2.1).items = body.items
      ∧ ((postOrders authId body now s).2.1).total = body.total
      ∧ ((postOrders authId body now s).2.1).createdAt = now
      ∧ ((postOrders authId body now s).2.1).address = jsStrOrNull body.address
      ∧ ((postOrders authId body now s).2.1).paymentId
          = jsStrOrNull body.paymentId :=
  ⟨rfl, rfl, rfl, rfl, rfl, rfl, rfl, rfl⟩

/-- C3 counterexample: a `POST /api/cart` request with quantity 0 (which is
`< 1`) is not rejected — the schema has no lower bound, the route answers
201, and a line is created (with quantity 1, since `0` is falsy in
`quantity || 1`). -/
theorem postCart_zero_quantity_cex :
    (postCart 1 ⟨7, some 0⟩ initState).1 = 201
      ∧ ((postCart 1 ⟨7, some 0⟩ initState).2.2).cartItems
          = [{ id := 1, userId := 1, menuItemId := 7, quantity := 1
               selectedAddons := none, specialInstructions := none }] := by
  exact ⟨rfl, by decide⟩

/-- C3 amended: add-to-cart does not validate `quantity ≥ 1`: for a fresh
`(user, menu item)` pair the request succeeds with 201 and creates a line;
a quantity of 0 is replaced by 1 (JavaScript falsy default) and a negative
quantity is stored as given. -/
theorem postCart_low_quantity_accepted (authId M : Nat) (q : Int)
    (s : StoreState)
    (hb : ∀ x ∈ s.cartItems, x.id < s.cartItemIdCounter)
    (hno : ∀ x ∈ s.cartItems, ¬(x.userId = authId ∧ x.menuItemId = M))
    (hq : q ≤ 0) :
    (postCart authId ⟨M, some q⟩ s).1 = 201
      ∧ ((postCart authId ⟨M, some q⟩ s).2.2).cartItems
          = s.cartItems ++
              [{ id := s.cartItemIdCounter, userId := authId, menuItemId := M
                 quantity := if q = 0 then 1 else q
                 selectedAddons := none, specialInstructions := none }] := by
  have hfind : s.cartItems.find?
      (fun item => item.userId == authId && item.menuItemId == M) = none := by
    refine List.find?_eq_none.mpr ?_
    intro x hx hp
    exact hno x hx (by simpa using hp)
  have h := addToCart_fresh authId M (some q) s hb hfind
  constructor
  · rfl
  · unfold postCart
    dsimp only
    rw [h]
    rfl

theorem postCart_low_quantity_witness :
    (postCart 1 ⟨7, some (-2)⟩ initState).1 = 201
      ∧ ((postCart 1 ⟨7, some (-2)⟩ initState).2.2).cartItems
          = [{ id := 1, userId := 1, menuItemId := 7, quantity := -2
               selectedAddons := none, specialInstructions := none }] := by
  have h := postCart_low_quantity_accepted 1 7 (-2) initState
    (by simp [initState]) (by simp [initState]) (by omega)
  simpa [initState] using h

/-- C4: `updateOrderStatus` fails (`undefined`, 404 at the route) when the
order does not exist, and otherwise accepts any status of the closed
enumeration from any current status — the stored order's status becomes
the new one, with no transition guard. -/
theorem updateOrderStatus_spec (oid : Nat) (st : OrderStatus) (s : StoreState) :
    (getOrderById oid s = none → updateOrderStatus oid st s = (none, s))
      ∧ (∀ o, getOrderById oid s = some o →
          (updateOrderStatus oid st s).1 = some { o with status := st }
            ∧ getOrderById oid (updateOrderStatus oid st s).2
                = some { o with status := st })
      ∧ (∀ str stt, parseOrderStatus str = some stt →
          getOrderById oid s = none → patchOrders oid str s = (404, none, s))
      ∧ (∀ str stt, parseOrderStatus str = some stt →
          ∀ o, getOrderById oid s = some o → (patchOrders oid str s).1 = 200) := by
  have hnone : ∀ st' : OrderStatus, getOrderById oid s = none →
      updateOrderStatus oid st' s = (none, s) := by
    intro st' h
    unfold getOrderById at h
    unfold updateOrderStatus
    rw [h]
  have hsome : ∀ (st' : OrderStatus) (o : Order), getOrderById oid s = some o →
      updateOrderStatus oid st' s
        = (some { o with status := st' },
           { s with
             orders := storeSet Order.id s.orders { o with status := st' } }) := by
    intro st' o h
    unfold getOrderById at h
    unfold updateOrderStatus
    rw [h]
  refine ⟨hnone st, ?_, ?_, ?_⟩
  · intro o h
    have hm := storeGet_mem Order.id s.orders oid o h
    refine ⟨by rw [hsome st o h], ?_⟩
    rw [hsome st o h]
    unfold getOrderById
    have hany : s.orders.any
        (fun x => x.id == Order.id { o with status := st }) = true :=
      List.any_eq_true.mpr ⟨o, hm.1, by simp⟩
    have hgs := storeGet_storeSet_same Order.id s.orders
      { o with status := st } hany
    rw [← hm.2]
    exact hgs
  · intro str stt hp h
    unfold patchOrders
    rw [hp]
    simp only
    rw [hnone stt h]
  · intro str stt hp o h
    unfold patchOrders
    rw [hp]
    simp only
    rw [hsome stt o h]

theorem updateOrderStatus_witness :
    updateOrderStatus 2 OrderStatus.pending stateWithOrder
        = (none, stateWithOrder)
      ∧ (updateOrderStatus 1 OrderStatus.pending stateWithOrder).1
          = some { demoOrder with status := OrderStatus.pending } := by
  refine ⟨(updateOrderStatus_spec 2 OrderStatus.pending stateWithOrder).1
    (by rfl), ?_⟩
  exact ((updateOrderStatus_spec 1 OrderStatus.pending stateWithOrder).2.1
    demoOrder (by rfl)).1

/-- C8: an authenticated non-admin requesting another user's orders gets
403 and no data; the same user id, or an admin requester, gets 200 with
the user's joined orders. -/
theorem getOrders_ownership (requester : User) (uid : Nat) (s : StoreState) :
    (uid ≠ requester.id → requester.isAdmin = false →
        getOrdersForUser requester uid s = (403, none))
      ∧ (uid = requester.id ∨ requester.isAdmin = true →
        getOrdersForUser requester uid s
          = (200, some (getOrdersByUserId uid s))) := by
  unfold getOrdersForUser
  constructor
  · intro h1 h2
    rw [if_pos ⟨h1, by simp [h2]⟩]
  · intro h
    have hc : ¬(uid ≠ requester.id ∧ ¬(requester.isAdmin = true)) := by
      rcases h with h | h
      · exact fun hcon => hcon.1 h
      · exact fun hcon => hcon.2 (by simp [h])
    rw [if_neg hc]

theorem getOrders_ownership_witness :
    getOrdersForUser plainUser 3 initState = (403, none)
      ∧ getOrdersForUser plainUser 2 initState
          = (200, some (getOrdersByUserId 2 initState))
      ∧ getOrdersForUser adminUser 5 initState
          = (200, some (getOrdersByUserId 5 initState)) := by
  refine ⟨(getOrders_ownership plainUser 3 initState).1 (by decide) (by rfl),
    (getOrders_ownership plainUser 2 initState).2 (Or.inl (by rfl)),
    (getOrders_ownership adminUser 5 initState).2 (Or.inr (by rfl))⟩

/-- C9: the payment route rejects a missing or non-positive amount with
400, and for a positive amount calls the payment capability with the
amount converted to minor units as `Math.round(amount * 100)`. -/
theorem postPayment_spec (a : ℚ) :
    (a ≤ 0 → postPayment (some a) = PaymentOutcome.badRequest)
      ∧ (0 < a → postPayment (some a)
          = PaymentOutcome.intent (jsRound (a * 100)))
      ∧ postPayment none = PaymentOutcome.badRequest := by
  refine ⟨fun h => ?_, fun h => ?_, rfl⟩
  · show (if a ≤ 0 then PaymentOutcome.badRequest
        else PaymentOutcome.intent (jsRound (a * 100)))
      = PaymentOutcome.badRequest
    rw [if_pos h]
  · show (if a ≤ 0 then PaymentOutcome.badRequest
        else PaymentOutcome.intent (jsRound (a * 100)))
      = PaymentOutcome.intent (jsRound (a * 100))
    rw [if_neg (not_le.mpr h)]

theorem postPayment_witness :
    ((-3 : ℚ) ≤ 0 ∧ postPayment (some (-3)) = PaymentOutcome.badRequest)
      ∧ (0 < (5 / 2 : ℚ)
          ∧ postPayment (some (5 / 2)) = PaymentOutcome.intent 250) := by
  refine ⟨⟨by norm_num, (postPayment_spec (-3)).1 (by norm_num)⟩,
    ⟨by norm_num, ?_⟩⟩
  have h := (postPayment_spec (5 / 2)).2.1 (by norm_num)
  rw [h]
  have hr : jsRound ((5 / 2 : ℚ) * 100) = 250 := by
    unfold jsRound
    norm_num [Int.floor_eq_iff]
  rw [hr]

theorem idsBelow_mono (key : α → Nat) (l : List α) {m n : Nat}
    (h : idsBelow key l m) (hmn : m ≤ n) : idsBelow key l n :=
  fun x hx => lt_of_lt_of_le (h x hx) hmn

theorem idsSorted_filter (key : α → Nat) (l : List α) (p : α → Bool)
    (h : idsSorted key l) : idsSorted key (l.filter p) :=
  h.sublist (List.Sublist.map key (List.filter_sublist l))

theorem idsBelow_filter (key : α → Nat) (l : List α) (p : α → Bool) (n : Nat)
    (h : idsBelow key l n) : idsBelow key (l.filter p) n :=
  fun x hx => h x (List.mem_filter.mp hx).1

theorem idsSorted_append_fresh (key : α → Nat) (l : List α) (v : α) (n : Nat)
    (hs : idsSorted key l) (hb : idsBelow key l n) (hv : key v = n) :
    idsSorted key (l ++ [v]) := by
  unfold idsSorted
  rw [List.map_append, List.pairwise_append]
  refine ⟨hs, List.pairwise_singleton _ _, ?_⟩
  intro x hx y hy
  simp only [List.map_cons, List.map_nil, List.mem_singleton] at hy
  subst hy
  rcases List.mem_map.mp hx with ⟨z, hz, rfl⟩
  rw [hv]
  exact hb z hz

theorem idsBelow_append_fresh (key : α → Nat) (l : List α) (v : α) (n : Nat)
    (hb : idsBelow key l n) (hv : key v = n) :
    idsBelow key (l ++ [v]) (n + 1) := by
  intro x hx
  rcases List.mem_append.mp hx with h | h
  · exact Nat.lt_succ_of_lt (hb x h)
  · simp only [List.mem_singleton] at h
    subst h
    omega

theorem idsSorted_set_fresh (key : α → Nat) (l : List α) (v : α) (n : Nat)
    (hs : idsSorted key l) (hb : idsBelow key l n) (hv : key v = n) :
    idsSorted key (storeSet key l v) := by
  rw [storeSet_of_fresh key l v
    (fun x hx => by rw [hv]; exact Nat.ne_of_lt (hb x hx))]
  exact idsSorted_append_fresh key l v n hs hb hv

theorem idsBelow_set_fresh (key : α → Nat) (l : List α) (v : α) (n : Nat)
    (hb : idsBelow key l n) (hv : key v = n) :
    idsBelow key (storeSet key l v) (n + 1) := by
  rw [storeSet_of_fresh key l v
    (fun x hx => by rw [hv]; exact Nat.ne_of_lt (hb x hx))]
  exact idsBelow_append_fresh key l v n hb hv

theorem idsSorted_storeSet (key : α → Nat) (l : List α) (v : α)
    (hany : l.any (fun x => key x == key v) = true)
    (hs : idsSorted key l) : idsSorted key (storeSet key l v) := by
  unfold idsSorted
  rw [storeSet_map_key key l v hany]
  exact hs

theorem idsBelow_storeSet (key : α → Nat) (l : List α) (v : α) (n : Nat)
    (hany : l.any (fun x => key x == key v) = true)
    (hb : idsBelow key l n) (hv : key v < n) :
    idsBelow key (storeSet key l v) n := by
  intro x hx
  unfold storeSet at hx
  rw [if_pos hany] at hx
  rcases List.mem_map.mp hx with ⟨z, hz, hzx⟩
  subst hzx
  by_cases hk : key z = key v
  · simpa [hk] using hv
  · simpa [hk] using hb z hz

theorem wf_createUser (ins : InsertUser) (s : StoreState) (w : StoreWF s) :
    StoreWF (createUser ins s).2 :=
  ⟨idsSorted_set_fresh User.id s.users _ s.userIdCounter
      w.usersSorted w.usersBelow rfl,
    idsBelow_set_fresh User.id s.users _ s.userIdCounter w.usersBelow rfl,
    w.menuSorted, w.menuBelow, w.cartSorted, w.cartBelow,
    w.ordersSorted, w.ordersBelow⟩

theorem wf_createMenuItem (ins : InsertMenuItem) (now : Nat) (s : StoreState)
    (w : StoreWF s) : StoreWF (createMenuItem ins now s).2 :=
  ⟨w.usersSorted, w.usersBelow,
    idsSorted_set_fresh MenuItem.id s.menuItems _ s.menuItemIdCounter
      w.menuSorted w.menuBelow rfl,
    idsBelow_set_fresh MenuItem.id s.menuItems _ s.menuItemIdCounter
      w.menuBelow rfl,
    w.cartSorted, w.cartBelow, w.ordersSorted, w.ordersBelow⟩

theorem wf_createOrder (ins : InsertOrder) (now : Nat) (s : StoreState)
    (w : StoreWF s) : StoreWF (createOrder ins now s).2 :=
  ⟨w.usersSorted, w.usersBelow, w.menuSorted, w.menuBelow,
    w.cartSorted, w.cartBelow,
    idsSorted_set_fresh Order.id s.orders _ s.orderIdCounter
      w.ordersSorted w.ordersBelow rfl,
    idsBelow_set_fresh Order.id s.orders _ s.orderIdCounter
      w.ordersBelow rfl⟩

theorem wf_updateMenuItem (id : Nat) (ins : InsertMenuItem) (s : StoreState)
    (w : StoreWF s) : StoreWF (updateMenuItem id ins s).2 := by
  unfold updateMenuItem
  cases hg : storeGet MenuItem.id s.menuItems id with
  | none => exact w
  | some existing =>
    have hm := storeGet_mem MenuItem.id s.menuItems id existing hg
    have hany : s.menuItems.any
        (fun x => MenuItem.id x == existing.id) = true :=
      List.any_eq_true.mpr ⟨existing, hm.1, by simp⟩
    exact ⟨w.usersSorted, w.usersBelow,
      idsSorted_storeSet MenuItem.id s.menuItems _ hany w.menuSorted,
      idsBelow_storeSet MenuItem.id s.menuItems _ s.menuItemIdCounter hany
        w.menuBelow (w.menuBelow existing hm.1),
      w.cartSorted, w.cartBelow, w.ordersSorted, w.ordersBelow⟩

theorem wf_deleteMenuItem (id : Nat) (s : StoreState) (w : StoreWF s) :
    StoreWF (deleteMenuItem id s).2 :=
  ⟨w.usersSorted, w.usersBelow,
    idsSorted_filter MenuItem.id s.menuItems _ w.menuSorted,
    idsBelow_filter MenuItem.id s.menuItems _ s.menuItemIdCounter w.menuBelow,
    w.cartSorted, w.cartBelow, w.ordersSorted, w.ordersBelow⟩

theorem wf_updateCartItemQuantity (id userId : Nat) (q : Int) (s : StoreState)
    (w : StoreWF s) : StoreWF (updateCartItemQuantity id userId q s).2 := by
  unfold updateCartItemQuantity
  cases hg : storeGet CartItem.id s.cartItems id with
  | none => exact w
  | some cartItem =>
    have hm := storeGet_mem CartItem.id s.cartItems id cartItem hg
    by_cases ho : cartItem.userId ≠ userId
    · simp only [if_pos ho]
      exact w
    · simp only [if_neg ho]
      have hany : s.cartItems.any
          (fun x => CartItem.id x == cartItem.id) = true :=
        List.any_eq_true.mpr ⟨cartItem, hm.1, by simp⟩
      exact ⟨w.usersSorted, w.usersBelow, w.menuSorted, w.menuBelow,
        idsSorted_storeSet CartItem.id s.cartItems _ hany w.cartSorted,
        idsBelow_storeSet CartItem.id s.cartItems _ s.cartItemIdCounter hany
          w.cartBelow (w.cartBelow cartItem hm.1),
        w.ordersSorted, w.ordersBelow⟩

theorem wf_addToCart (ins : InsertCartItem) (s : StoreState) (w : StoreWF s) :
    StoreWF (addToCart ins s).2 := by
  unfold addToCart
  cases hf : s.cartItems.find?
      (fun item => item.userId == ins.userId
        && item.menuItemId == ins.menuItemId) with
  | some existing =>
    exact wf_updateCartItemQuantity existing.id ins.userId
      (existing.quantity + jsNumOr ins.quantity 1) s w
  | none =>
    exact ⟨w.usersSorted, w.usersBelow, w.menuSorted, w.menuBelow,
      idsSorted_set_fresh CartItem.id s.cartItems _ s.cartItemIdCounter
        w.cartSorted w.cartBelow rfl,
      idsBelow_set_fresh CartItem.id s.cartItems _ s.cartItemIdCounter
        w.cartBelow rfl,
      w.ordersSorted, w.ordersBelow⟩

theorem wf_removeFromCart (id userId : Nat) (s : StoreState) (w : StoreWF s) :
    StoreWF (removeFromCart id userId s).2 := by
  unfold removeFromCart
  cases hg : storeGet CartItem.id s.cartItems id with
  | none => exact w
  | some cartItem =>
    by_cases ho : cartItem.userId ≠ userId
    · simp only [if_pos ho]
      exact w
    · simp only [if_neg ho]
      exact ⟨w.usersSorted, w.usersBelow, w.menuSorted, w.menuBelow,
        idsSorted_filter CartItem.id s.cartItems _ w.cartSorted,
        idsBelow_filter CartItem.id s.cartItems _ s.cartItemIdCounter
          w.cartBelow,
        w.ordersSorted, w.ordersBelow⟩

theorem wf_clearCart (userId : Nat) (s : StoreState) (w : StoreWF s) :
    StoreWF (clearCart userId s).2 := by
  rw [clearCart_eq]
  exact ⟨w.usersSorted, w.usersBelow, w.menuSorted, w.menuBelow,
    idsSorted_filter CartItem.id s.cartItems _ w.cartSorted,
    idsBelow_filter CartItem.id s.cartItems _ s.cartItemIdCounter w.cartBelow,
    w.ordersSorted, w.ordersBelow⟩

theorem wf_updateOrderStatus (id : Nat) (st : OrderStatus) (s : StoreState)
    (w : StoreWF s) : StoreWF (updateOrderStatus id st s).2 := by
  unfold updateOrderStatus
  cases hg : storeGet Order.id s.orders id with
  | none => exact w
  | some order =>
    have hm := storeGet_mem Order.id s.orders id order hg
    have hany : s.orders.any (fun x => Order.id x == order.id) = true :=
      List.any_eq_true.mpr ⟨order, hm.1, by simp⟩
    exact ⟨w.usersSorted, w.usersBelow, w.menuSorted, w.menuBelow,
      w.cartSorted, w.cartBelow,
      idsSorted_storeSet Order.id s.orders _ hany w.ordersSorted,
      idsBelow_storeSet Order.id s.orders _ s.orderIdCounter hany
        w.ordersBelow (w.ordersBelow order hm.1)⟩

theorem wf_step (op : Op) (s : StoreState) (w : StoreWF s) :
    StoreWF (step op s) := by
  cases op with
  | createUser ins => exact wf_createUser ins s w
  | createMenuItem ins now => exact wf_createMenuItem ins now s w
  | updateMenuItem id ins => exact wf_updateMenuItem id ins s w
  | deleteMenuItem id => exact wf_deleteMenuItem id s w
  | addToCart ins => exact wf_addToCart ins s w
  | removeFromCart id userId => exact wf_removeFromCart id userId s w
  | updateCartItemQuantity id userId q =>
    exact wf_updateCartItemQuantity id userId q s w
  | clearCart userId => exact wf_clearCart userId s w
  | createOrder ins now => exact wf_createOrder ins now s w
  | updateOrderStatus id st => exact wf_updateOrderStatus id st s w

theorem wf_run (ops : List Op) (s : StoreState) (w : StoreWF s) :
    StoreWF (run ops s) := by
  induction ops generalizing s with
  | nil => exact w
  | cons op ops ih => exact ih (step op s) (wf_step op s w)

theorem wf_init : StoreWF initState := by
  refine ⟨?_, ?_, ?_, ?_, ?_, ?_, ?_, ?_⟩ <;>
    simp [initState, idsSorted, idsBelow]

/-- C7: each entity type has its own id counter starting at 1; every create
operation hands out the current counter value as the new id and increments
the counter; consequently, over any sequence of storage calls from the
initial state, each collection's ids are strictly increasing in insertion
order and no two entities of a type share an id. -/
theorem idCounters_spec :
    (initState.userIdCounter = 1 ∧ initState.menuItemIdCounter = 1
        ∧ initState.cartItemIdCounter = 1 ∧ initState.orderIdCounter = 1)
      ∧ (∀ ins s, (createUser ins s).1.id = s.userIdCounter
          ∧ (createUser ins s).2.userIdCounter = s.userIdCounter + 1)
      ∧ (∀ ins now s, (createMenuItem ins now s).1.id = s.menuItemIdCounter
          ∧ (createMenuItem ins now s).2.menuItemIdCounter
              = s.menuItemIdCounter + 1)
      ∧ (∀ ins now s, (createOrder ins now s).1.id = s.orderIdCounter
          ∧ (createOrder ins now s).2.orderIdCounter = s.orderIdCounter + 1)
      ∧ (∀ (U M : Nat) (q : Option Int) (s : StoreState),
          s.cartItems.find?
              (fun item => item.userId == U && item.menuItemId == M) = none →
            (addToCart ⟨U, M, q⟩ s).1.map CartItem.id
                = some s.cartItemIdCounter
              ∧ (addToCart ⟨U, M, q⟩ s).2.cartItemIdCounter
                  = s.cartItemIdCounter + 1)
      ∧ (∀ op s, StoreWF s → StoreWF (step op s))
      ∧ (∀ ops, StoreWF (run ops initState)
          ∧ ((run ops initState).users.map User.id).Nodup
          ∧ ((run ops initState).menuItems.map MenuItem.id).Nodup
          ∧ ((run ops initState).cartItems.map CartItem.id).Nodup
          ∧ ((run ops initState).orders.map Order.id).Nodup) := by
  refine ⟨⟨rfl, rfl, rfl, rfl⟩, fun ins s => ⟨rfl, rfl⟩,
    fun ins now s => ⟨rfl, rfl⟩, fun ins now s => ⟨rfl, rfl⟩,
    ?_, wf_step, ?_⟩
  · intro U M q s hf
    unfold addToCart
    rw [hf]
    exact ⟨rfl, rfl⟩
  · intro ops
    have w := wf_run ops initState wf_init
    exact ⟨w, w.usersSorted.imp Nat.ne_of_lt, w.menuSorted.imp Nat.ne_of_lt,
      w.cartSorted.imp Nat.ne_of_lt, w.ordersSorted.imp Nat.ne_of_lt⟩

theorem idCounters_witness :
    (createUser ⟨"u", "p", none, none, none⟩ initState).1.id = 1
      ∧ (addToCart ⟨1, 5, some 2⟩ initState).1.map CartItem.id = some 1
      ∧ (addToCart ⟨1, 5, some 2⟩ initState).2.cartItemIdCounter = 2
      ∧ StoreWF (step (Op.clearCart 1) initState) := by
  have h := idCounters_spec
  refine ⟨(h.2.1 ⟨"u", "p", none, none, none⟩ initState).1, ?_, ?_, ?_⟩
  · exact (h.2.2.2.2.1 1 5 (some 2) initState (by rfl)).1
  · exact (h.2.2.2.2.1 1 5 (some 2) initState (by rfl)).2
  · exact h.2.2.2.2.2.1 (Op.clearCart 1) initState (h.2.2.2.2.2.2 []).1

end FoodOrder
